import Mathlib

/-!
Verification of the ID-token validation core of `jms_oidc_rp` (file
`jms_oidc_rp/utils.py`).

The embedding models, faithfully to the Python source:

* `urlNetloc` — the `netloc` component produced by Python's
  `urllib.parse.urlparse`: an optional scheme prefix (letters, digits,
  `+`, `-`, `.`, first character a letter, terminated by `:`) is
  stripped, and when the remainder starts with `//` the netloc is the
  text up to the first `/`, `?` or `#`; otherwise the netloc is empty.
* `ClaimSet` — the decoded id-token payload dict restricted to the keys
  the validator reads (`iss`, `aud`, `azp`, `exp`, `nbf`, `iat`,
  `nonce`); an absent key is `none`.  `aud` may be a bare string or a
  list (`AudValue`).
* `Err` — what `_validate_claims` can raise: a `KeyError` on a missing
  required key (an untyped dict lookup failure) or a
  `SuspiciousOperation` carrying a message string.  The Python code
  raises the single exception class `SuspiciousOperation`; errors are
  distinguishable only through their message.
* `_validate_claims` — the claim validator, returning the outcome
  together with the final state of the claims dict (the Python code
  mutates `id_token['aud']` in place).
* `validate_and_return_id_token` — the entry point: the result of the
  library signature check `JWS().verify_compact` is passed in as an
  `Except String ClaimSet` (errors are `JWKESTException`s); the Python
  code catches the exception and returns `None`.
-/

/-- True for the characters Python's `urlsplit` accepts inside a URL
scheme: letters, digits, `+`, `-` and `.`. -/
def isSchemeChar (c : Char) : Bool :=
  c.isAlpha || c.isDigit || c = '+' || c = '-' || c = '.'

/-- Split a character list at the first `:`; `none` when there is no
colon.  Mirrors `url.find(':')` in Python's `urlsplit`. -/
def splitAtColon : List Char → Option (List Char × List Char)
  | [] => none
  | c :: cs =>
      if c = ':' then some ([], cs)
      else (splitAtColon cs).map (fun p => (c :: p.1, p.2))

/-- Whether a candidate scheme (the text before the first `:`) is
accepted by Python's `urlsplit`: nonempty, first char a letter, all
chars scheme chars. -/
def schemeOk : List Char → Bool
  | [] => false
  | c :: cs => c.isAlpha && (c :: cs).all isSchemeChar

/-- The URL after any scheme prefix has been removed, as in Python's
`urlsplit`. -/
def dropScheme (cs : List Char) : List Char :=
  match splitAtColon cs with
  | some (before, after) => if schemeOk before then after else cs
  | none => cs

/-- The `netloc` of `urllib.parse.urlparse(url)`: when the
scheme-stripped URL starts with `//`, the text up to the first `/`,
`?` or `#`; otherwise the empty string.  Note the scheme itself is NOT
part of the netloc. -/
def urlNetloc (url : String) : String :=
  match dropScheme url.toList with
  | '/' :: '/' :: rest =>
      ⟨rest.takeWhile (fun c => c ≠ '/' && c ≠ '?' && c ≠ '#')⟩
  | _ => ""

/-- The scheme of `urllib.parse.urlparse(url)` (empty when absent).
Used only to state the spec's notion of URL authority
(scheme+host+port), which `specAuthority` below formalises. -/
def urlScheme (cs : List Char) : List Char :=
  match splitAtColon cs with
  | some (before, _) => if schemeOk before then before else []
  | none => []

/-- Follows the spec's words, not the source: the "authority" of a URL
as "scheme+host+port, ignoring path" — the scheme together with the
netloc.  The source's issuer check compares `urlNetloc` only; this
definition exists to compare the two. -/
def specAuthority (url : String) : List Char × String :=
  (urlScheme url.toList, urlNetloc url)

/-- The `aud` claim: Python allows a bare string or a list of strings. -/
inductive AudValue where
  | s (v : String)
  | l (vs : List String)
deriving DecidableEq, Repr

/-- The decoded id-token payload restricted to the claims the validator
reads.  `none` models an absent dict key. -/
structure ClaimSet where
  iss : Option String
  aud : Option AudValue
  azp : Option String
  exp : Option Int
  nbf : Option Int
  iat : Option Int
  nonce : Option String
deriving DecidableEq, Repr

/-- The `oidc_rp_settings` fields `_validate_claims` reads. -/
structure Settings where
  CLIENT_ID : String
  PROVIDER_ENDPOINT : String
  USE_NONCE : Bool
  ID_TOKEN_MAX_AGE : Int
deriving DecidableEq, Repr

/-- What `_validate_claims` can raise: an untyped `KeyError` from a
missing required dict key, or Django's `SuspiciousOperation` with a
message string (the only typed failure the source uses). -/
inductive Err where
  | keyError (key : String)
  | suspicious (msg : String)
deriving DecidableEq, Repr

/-- The error raised at `raise SuspiciousOperation('Invalid issuer')`. -/
def invalidIssuer : Err := .suspicious "Invalid issuer"

/-- The error raised at `raise SuspiciousOperation('Invalid audience')`. -/
def invalidAudience : Err := .suspicious "Invalid audience"

/-- The error raised when a multi-audience token lacks `azp`:
`raise SuspiciousOperation('Incorrect id_token: azp')`.  Note the
source uses the same exception and message for the azp-mismatch case
(`invalidAuthorizedParty`). -/
def missingAuthorizedParty : Err := .suspicious "Incorrect id_token: azp"

/-- The error raised when `azp` is present but differs from the client
id: `raise SuspiciousOperation('Incorrect id_token: azp')` — the very
same exception and message as `missingAuthorizedParty`. -/
def invalidAuthorizedParty : Err := .suspicious "Incorrect id_token: azp"

/-- The error raised at `raise SuspiciousOperation('Signature has expired')`. -/
def tokenExpired : Err := .suspicious "Signature has expired"

/-- The error raised at `raise SuspiciousOperation('Incorrect id_token: nbf')`. -/
def tokenNotYetValid : Err := .suspicious "Incorrect id_token: nbf"

/-- The error raised at `raise SuspiciousOperation('Incorrect id_token: iat')`. -/
def tokenTooOld : Err := .suspicious "Incorrect id_token: iat"

/-- The error raised at `raise SuspiciousOperation('Incorrect id_token: nonce')`. -/
def invalidNonce : Err := .suspicious "Incorrect id_token: nonce"

/-- Value of `id_token['aud']` after the normalisation
`if isinstance(id_token['aud'], str): id_token['aud'] = [id_token['aud']]`,
as a list. -/
def normAudList : AudValue → List String
  | .s v => [v]
  | .l vs => vs

/-- The state of the claims dict after utils.py lines 82-83: a bare
string `aud` is replaced, in place, by the one-element list holding it;
a list `aud` leaves the dict untouched. -/
def normTok (cl : ClaimSet) (audv : AudValue) : ClaimSet :=
  match audv with
  | .s v => { cl with aud := some (AudValue.l [v]) }
  | .l _ => cl

/-- The function `_validate_claims` is embedded as a chain of step functions, one per
contiguous block of `jms_oidc_rp/utils.py` lines 76-116, each passing on
the (possibly already mutated) claims dict `tok` and returning the
outcome paired with the final dict state.  `vcNonce` is the last block,
utils.py lines 111-114: `id_token.get('nonce', None)` (no `KeyError`
possible) compared under `validate_nonce and USE_NONCE`. -/
def vcNonce (cfg : Settings) (tok : ClaimSet)
    (nonce : Option String) (validate_nonce : Bool) : Except Err Unit × ClaimSet :=
  if validate_nonce ∧ cfg.USE_NONCE ∧ tok.nonce ≠ nonce then
    (.error invalidNonce, tok)
  else
    (.ok (), tok)

/-- utils.py line 106: `id_token['iat']` (a `KeyError` when absent) plus
`ID_TOKEN_MAX_AGE` against the clock sample, then on to the nonce step. -/
def vcIat (cfg : Settings) (now : Int) (tok : ClaimSet)
    (nonce : Option String) (validate_nonce : Bool) : Except Err Unit × ClaimSet :=
  match tok.iat with
  | none => (.error (.keyError "iat"), tok)
  | some i =>
      if now > i + cfg.ID_TOKEN_MAX_AGE then (.error tokenTooOld, tok)
      else vcNonce cfg tok nonce validate_nonce

/-- utils.py line 101: `'nbf' in id_token and utc_timestamp < id_token['nbf']`
(no `KeyError` possible), then on to the issued-at step. -/
def vcNbf (cfg : Settings) (now : Int) (tok : ClaimSet)
    (nonce : Option String) (validate_nonce : Bool) : Except Err Unit × ClaimSet :=
  match tok.nbf with
  | some b =>
      if now < b then (.error tokenNotYetValid, tok)
      else vcIat cfg now tok nonce validate_nonce
  | none => vcIat cfg now tok nonce validate_nonce

/-- utils.py line 97: `utc_timestamp > id_token['exp']` (a `KeyError`
when absent), then on to the not-before step. -/
def vcExp (cfg : Settings) (now : Int) (tok : ClaimSet)
    (nonce : Option String) (validate_nonce : Bool) : Except Err Unit × ClaimSet :=
  match tok.exp with
  | none => (.error (.keyError "exp"), tok)
  | some e =>
      if now > e then (.error tokenExpired, tok)
      else vcNbf cfg now tok nonce validate_nonce

/-- utils.py line 93: `'azp' in id_token and id_token['azp'] != CLIENT_ID`,
then on to the time-based steps. -/
def vcAzpMatch (cfg : Settings) (now : Int) (tok : ClaimSet)
    (nonce : Option String) (validate_nonce : Bool) : Except Err Unit × ClaimSet :=
  match tok.azp with
  | some a =>
      if a ≠ cfg.CLIENT_ID then (.error invalidAuthorizedParty, tok)
      else vcExp cfg now tok nonce validate_nonce
  | none => vcExp cfg now tok nonce validate_nonce

/-- utils.py line 89: `len(id_token['aud']) > 1 and 'azp' not in id_token`.
`audList` is the value of `tok.aud` after normalisation (always a list
at this point), passed along to avoid re-destructuring the dict. -/
def vcAzpPresence (cfg : Settings) (now : Int) (tok : ClaimSet) (audList : List String)
    (nonce : Option String) (validate_nonce : Bool) : Except Err Unit × ClaimSet :=
  if audList.length > 1 ∧ tok.azp = none then (.error missingAuthorizedParty, tok)
  else vcAzpMatch cfg now tok nonce validate_nonce

/-- utils.py line 85: `CLIENT_ID not in id_token['aud']` on the
normalised audience. -/
def vcAudMember (cfg : Settings) (now : Int) (tok : ClaimSet) (audList : List String)
    (nonce : Option String) (validate_nonce : Bool) : Except Err Unit × ClaimSet :=
  if cfg.CLIENT_ID ∉ audList then (.error invalidAudience, tok)
  else vcAzpPresence cfg now tok audList nonce validate_nonce

/-- Embedding of `_validate_claims(id_token, nonce, validate_nonce)` from
`jms_oidc_rp/utils.py` (lines 71-116), with the process-global
`oidc_rp_settings` passed as `cfg` and the single wall-clock sample
`timegm(dt.datetime.utcnow().utctimetuple())` passed as `now`.

Returns the outcome (`.ok ()` = the function returns normally,
`.error e` = it raises `e`) paired with the final state of the
`id_token` dict: the Python code mutates `id_token['aud']` in place
(line 83) when `aud` is a bare string, and that mutation is visible to
the caller whether or not a later check raises. -/
def _validate_claims (cfg : Settings) (now : Int) (id_token : ClaimSet)
    (nonce : Option String) (validate_nonce : Bool) :
    Except Err Unit × ClaimSet :=
  match id_token.iss with
  | none => (.error (.keyError "iss"), id_token)
  | some iss =>
    if urlNetloc iss ≠ urlNetloc cfg.PROVIDER_ENDPOINT then
      (.error invalidIssuer, id_token)
    else
      match id_token.aud with
      | none => (.error (.keyError "aud"), id_token)
      | some audv =>
        vcAudMember cfg now (normTok id_token audv) (normAudList audv)
          nonce validate_nonce

/-- Embedding of `validate_and_return_id_token(jws, nonce, validate_nonce)` from
`jms_oidc_rp/utils.py`.  The outcome of the library call
`JWS().verify_compact(force_bytes(jws), _get_jwks_keys(shared_key))`
is passed in as `verifyResult` (an `Except` whose error is the
`JWKESTException` message).  On such an exception the Python code logs
and executes a bare `return`, i.e. returns `None`: here `.ok none`.
On signature success it runs `_validate_claims` — whose exception, if
any, propagates to the caller — and returns the (possibly mutated)
claims dict. -/
def validate_and_return_id_token (cfg : Settings) (now : Int)
    (verifyResult : Except String ClaimSet)
    (nonce : Option String) (validate_nonce : Bool) :
    Except Err (Option ClaimSet) :=
  match verifyResult with
  | .error _ => .ok none
  | .ok id_token =>
      match _validate_claims cfg now id_token nonce validate_nonce with
      | (.error e, _) => .error e
      | (.ok _, tok) => .ok (some tok)

/-- Sanity facts anchoring the `urlparse` model: the netloc ignores the
scheme, a missing path, a trailing slash, and keeps an explicit port; a
URL without a scheme-and-slashes prefix has an empty netloc. -/
theorem urlNetloc_examples :
    urlNetloc "https://op.example.com/" = "op.example.com" ∧
    urlNetloc "https://op.example.com" = "op.example.com" ∧
    urlNetloc "http://op.example.com:8080/a/b?c" = "op.example.com:8080" ∧
    urlNetloc "op.example.com" = "" := by
  refine ⟨by decide, by decide, by decide, by decide⟩

/-- Check 1 (utils.py line 78): issuer netloc comparison. -/
def ruleIssuer (cfg : Settings) (iss : String) : Option Err :=
  if urlNetloc iss ≠ urlNetloc cfg.PROVIDER_ENDPOINT then some invalidIssuer else none

/-- Check 3 (utils.py line 85): client-id membership in the normalised
audience list. -/
def ruleAudience (cfg : Settings) (audList : List String) : Option Err :=
  if cfg.CLIENT_ID ∉ audList then some invalidAudience else none

/-- Check 4 (utils.py line 89): a multi-audience token must carry `azp`. -/
def ruleAzpPresence (audList : List String) (azp : Option String) : Option Err :=
  if audList.length > 1 ∧ azp = none then some missingAuthorizedParty else none

/-- Check 5 (utils.py line 93): a present `azp` must equal the client id. -/
def ruleAzpMatch (cfg : Settings) (azp : Option String) : Option Err :=
  match azp with
  | some a => if a ≠ cfg.CLIENT_ID then some invalidAuthorizedParty else none
  | none => none

/-- Check 6 (utils.py line 97): the token must not be expired. -/
def ruleExpiry (now e : Int) : Option Err :=
  if now > e then some tokenExpired else none

/-- Check 7 (utils.py line 101): a present `nbf` must not lie in the future. -/
def ruleNbf (now : Int) (nbf : Option Int) : Option Err :=
  match nbf with
  | some b => if now < b then some tokenNotYetValid else none
  | none => none

/-- Check 8 (utils.py line 106): the token must have been issued within
the allowed timeframe. -/
def ruleIat (cfg : Settings) (now i : Int) : Option Err :=
  if now > i + cfg.ID_TOKEN_MAX_AGE then some tokenTooOld else none

/-- Check 9 (utils.py line 112): nonce comparison, when enforced. -/
def ruleNonce (cfg : Settings) (vn : Bool) (tokNonce expected : Option String) :
    Option Err :=
  if vn ∧ cfg.USE_NONCE ∧ tokNonce ≠ expected then some invalidNonce else none

/-- The checks of `_validate_claims` in source order, applied to a token
whose four required claims are present.  The audience normalisation
(utils.py line 82) sits between checks 1 and 3: it is not a check and is
reflected in `normAudList audv`. -/
def claimChecks (cfg : Settings) (now : Int) (iss : String) (audv : AudValue)
    (azp : Option String) (e : Int) (nbf : Option Int) (i : Int)
    (tokNonce expected : Option String) (vn : Bool) : List (Option Err) :=
  [ruleIssuer cfg iss,
   ruleAudience cfg (normAudList audv),
   ruleAzpPresence (normAudList audv) azp,
   ruleAzpMatch cfg azp,
   ruleExpiry now e,
   ruleNbf now nbf,
   ruleIat cfg now i,
   ruleNonce cfg vn tokNonce expected]

/-- The outcome of an ordered, fail-fast sequence of checks: the first
check that produces an error determines the result; if none fails the
sequence succeeds. -/
def firstErr (checks : List (Option Err)) : Except Err Unit :=
  match checks.findSome? id with
  | some e => .error e
  | none => .ok ()

/-- A passing check does not affect the fail-fast outcome. -/
theorem firstErr_none (l : List (Option Err)) : firstErr (none :: l) = firstErr l := rfl

/-- A failing check determines the fail-fast outcome. -/
theorem firstErr_some (e : Err) (l : List (Option Err)) :
    firstErr (some e :: l) = .error e := rfl

theorem vcNonce_fst (cfg : Settings) (tok : ClaimSet) (n : Option String) (vn : Bool) :
    (vcNonce cfg tok n vn).1 = firstErr [ruleNonce cfg vn tok.nonce n] := by
  unfold vcNonce ruleNonce
  split_ifs <;> rfl

theorem vcIat_fst (cfg : Settings) (now : Int) (tok : ClaimSet)
    (n : Option String) (vn : Bool) (i : Int) (hiat : tok.iat = some i) :
    (vcIat cfg now tok n vn).1 =
      firstErr [ruleIat cfg now i, ruleNonce cfg vn tok.nonce n] := by
  unfold vcIat ruleIat
  rw [hiat]
  dsimp only
  split_ifs
  · rfl
  · rw [firstErr_none]
    exact vcNonce_fst cfg tok n vn

theorem vcNbf_fst (cfg : Settings) (now : Int) (tok : ClaimSet)
    (n : Option String) (vn : Bool) (i : Int) (hiat : tok.iat = some i) :
    (vcNbf cfg now tok n vn).1 =
      firstErr [ruleNbf now tok.nbf, ruleIat cfg now i,
        ruleNonce cfg vn tok.nonce n] := by
  unfold vcNbf ruleNbf
  cases hnbf : tok.nbf with
  | none => rw [firstErr_none]; exact vcIat_fst cfg now tok n vn i hiat
  | some b =>
      dsimp only
      split_ifs
      · rfl
      · rw [firstErr_none]
        exact vcIat_fst cfg now tok n vn i hiat

theorem vcExp_fst (cfg : Settings) (now : Int) (tok : ClaimSet)
    (n : Option String) (vn : Bool) (e i : Int)
    (hexp : tok.exp = some e) (hiat : tok.iat = some i) :
    (vcExp cfg now tok n vn).1 =
      firstErr [ruleExpiry now e, ruleNbf now tok.nbf, ruleIat cfg now i,
        ruleNonce cfg vn tok.nonce n] := by
  unfold vcExp ruleExpiry
  rw [hexp]
  dsimp only
  split_ifs
  · rfl
  · rw [firstErr_none]
    exact vcNbf_fst cfg now tok n vn i hiat

theorem vcAzpMatch_fst (cfg : Settings) (now : Int) (tok : ClaimSet)
    (n : Option String) (vn : Bool) (e i : Int)
    (hexp : tok.exp = some e) (hiat : tok.iat = some i) :
    (vcAzpMatch cfg now tok n vn).1 =
      firstErr [ruleAzpMatch cfg tok.azp, ruleExpiry now e, ruleNbf now tok.nbf,
        ruleIat cfg now i, ruleNonce cfg vn tok.nonce n] := by
  unfold vcAzpMatch ruleAzpMatch
  cases hazp : tok.azp with
  | none => rw [firstErr_none]; exact vcExp_fst cfg now tok n vn e i hexp hiat
  | some a =>
      dsimp only
      split_ifs
      · rfl
      · rw [firstErr_none]
        exact vcExp_fst cfg now tok n vn e i hexp hiat

theorem vcAzpPresence_fst (cfg : Settings) (now : Int) (tok : ClaimSet)
    (audList : List String) (n : Option String) (vn : Bool) (e i : Int)
    (hexp : tok.exp = some e) (hiat : tok.iat = some i) :
    (vcAzpPresence cfg now tok audList n vn).1 =
      firstErr [ruleAzpPresence audList tok.azp, ruleAzpMatch cfg tok.azp,
        ruleExpiry now e, ruleNbf now tok.nbf, ruleIat cfg now i,
        ruleNonce cfg vn tok.nonce n] := by
  unfold vcAzpPresence ruleAzpPresence
  split_ifs
  · rfl
  · rw [firstErr_none]
    exact vcAzpMatch_fst cfg now tok n vn e i hexp hiat

theorem vcAudMember_fst (cfg : Settings) (now : Int) (tok : ClaimSet)
    (audList : List String) (n : Option String) (vn : Bool) (e i : Int)
    (hexp : tok.exp = some e) (hiat : tok.iat = some i) :
    (vcAudMember cfg now tok audList n vn).1 =
      firstErr [ruleAudience cfg audList, ruleAzpPresence audList tok.azp,
        ruleAzpMatch cfg tok.azp, ruleExpiry now e, ruleNbf now tok.nbf,
        ruleIat cfg now i, ruleNonce cfg vn tok.nonce n] := by
  unfold vcAudMember ruleAudience
  split_ifs
  · rw [firstErr_none]
    exact vcAzpPresence_fst cfg now tok audList n vn e i hexp hiat
  · rfl

/-- Master lemma: on a token whose required claims `iss`, `aud`, `exp`,
`iat` are all present, the outcome of `_validate_claims` is exactly the
first failure of the ordered check list `claimChecks`. -/
theorem validate_claims_eq_firstErr (cfg : Settings) (now : Int)
    (iss : String) (audv : AudValue) (azp : Option String) (e : Int)
    (nbf : Option Int) (i : Int) (tn n : Option String) (vn : Bool) :
    (_validate_claims cfg now ⟨some iss, some audv, azp, some e, nbf, some i, tn⟩ n vn).1 =
      firstErr (claimChecks cfg now iss audv azp e nbf i tn n vn) := by
  unfold _validate_claims claimChecks ruleIssuer
  dsimp only
  split_ifs
  · rfl
  · rw [firstErr_none]
    rcases audv with v | vs
    · exact vcAudMember_fst cfg now _ _ n vn e i rfl rfl
    · exact vcAudMember_fst cfg now _ _ n vn e i rfl rfl

theorem normTok_iss (cl : ClaimSet) (audv : AudValue) : (normTok cl audv).iss = cl.iss := by
  cases audv <;> rfl

theorem normTok_azp (cl : ClaimSet) (audv : AudValue) : (normTok cl audv).azp = cl.azp := by
  cases audv <;> rfl

theorem normTok_exp (cl : ClaimSet) (audv : AudValue) : (normTok cl audv).exp = cl.exp := by
  cases audv <;> rfl

theorem normTok_nbf (cl : ClaimSet) (audv : AudValue) : (normTok cl audv).nbf = cl.nbf := by
  cases audv <;> rfl

theorem normTok_iat (cl : ClaimSet) (audv : AudValue) : (normTok cl audv).iat = cl.iat := by
  cases audv <;> rfl

theorem normTok_nonce (cl : ClaimSet) (audv : AudValue) : (normTok cl audv).nonce = cl.nonce := by
  cases audv <;> rfl

/-- A fail-fast sequence yields a given error only if some check in the
list produces it. -/
theorem firstErr_error_mem (l : List (Option Err)) (e : Err)
    (h : firstErr l = .error e) : some e ∈ l := by
  induction l with
  | nil => simp [firstErr, List.findSome?] at h
  | cons a l ih =>
      cases a with
      | none => exact List.mem_cons_of_mem _ (ih (by rwa [firstErr_none] at h))
      | some b =>
          rw [firstErr_some] at h
          injection h with h
          rw [h]
          exact List.mem_cons_self _ _

theorem ruleIssuer_none_iff (cfg : Settings) (iss : String) :
    ruleIssuer cfg iss = none ↔ urlNetloc iss = urlNetloc cfg.PROVIDER_ENDPOINT := by
  unfold ruleIssuer
  split_ifs with h <;> simp_all

theorem ruleAudience_none_iff (cfg : Settings) (l : List String) :
    ruleAudience cfg l = none ↔ cfg.CLIENT_ID ∈ l := by
  unfold ruleAudience
  split_ifs with h <;> simp_all

theorem ruleAzpPresence_none_iff (l : List String) (azp : Option String) :
    ruleAzpPresence l azp = none ↔ ¬(l.length > 1 ∧ azp = none) := by
  unfold ruleAzpPresence
  split_ifs with h <;> simp_all

theorem ruleAzpMatch_none_iff (cfg : Settings) (azp : Option String) :
    ruleAzpMatch cfg azp = none ↔ (azp = none ∨ azp = some cfg.CLIENT_ID) := by
  unfold ruleAzpMatch
  cases azp with
  | none => simp
  | some a => dsimp only; split_ifs with h <;> simp_all

theorem ruleExpiry_none_iff (now e : Int) :
    ruleExpiry now e = none ↔ ¬ now > e := by
  unfold ruleExpiry
  split_ifs with h <;> simp_all

theorem ruleNbf_none_iff (now : Int) (nbf : Option Int) :
    ruleNbf now nbf = none ↔ (∀ b, nbf = some b → ¬ now < b) := by
  unfold ruleNbf
  cases nbf with
  | none => simp
  | some b => dsimp only; split_ifs with h <;> simp_all

theorem ruleIat_none_iff (cfg : Settings) (now i : Int) :
    ruleIat cfg now i = none ↔ ¬ now > i + cfg.ID_TOKEN_MAX_AGE := by
  unfold ruleIat
  split_ifs with h <;> simp_all

theorem ruleNonce_none_iff (cfg : Settings) (vn : Bool) (tn n : Option String) :
    ruleNonce cfg vn tn n = none ↔ ¬(vn ∧ cfg.USE_NONCE ∧ tn ≠ n) := by
  unfold ruleNonce
  split_ifs with h <;> simp_all

theorem ruleAudience_cases (cfg : Settings) (l : List String) :
    ruleAudience cfg l = none ∨ ruleAudience cfg l = some invalidAudience := by
  unfold ruleAudience
  split_ifs <;> simp

theorem ruleAzpPresence_cases (l : List String) (azp : Option String) :
    ruleAzpPresence l azp = none ∨ ruleAzpPresence l azp = some missingAuthorizedParty := by
  unfold ruleAzpPresence
  split_ifs <;> simp

theorem ruleAzpMatch_cases (cfg : Settings) (azp : Option String) :
    ruleAzpMatch cfg azp = none ∨ ruleAzpMatch cfg azp = some invalidAuthorizedParty := by
  unfold ruleAzpMatch
  cases azp with
  | none => simp
  | some a => dsimp only; split_ifs <;> simp

theorem ruleExpiry_cases (now e : Int) :
    ruleExpiry now e = none ∨ ruleExpiry now e = some tokenExpired := by
  unfold ruleExpiry
  split_ifs <;> simp

theorem ruleNbf_cases (now : Int) (nbf : Option Int) :
    ruleNbf now nbf = none ∨ ruleNbf now nbf = some tokenNotYetValid := by
  unfold ruleNbf
  cases nbf with
  | none => simp
  | some b => dsimp only; split_ifs <;> simp

theorem ruleIat_cases (cfg : Settings) (now i : Int) :
    ruleIat cfg now i = none ∨ ruleIat cfg now i = some tokenTooOld := by
  unfold ruleIat
  split_ifs <;> simp

theorem ruleNonce_cases (cfg : Settings) (vn : Bool) (tn n : Option String) :
    ruleNonce cfg vn tn n = none ∨ ruleNonce cfg vn tn n = some invalidNonce := by
  unfold ruleNonce
  split_ifs <;> simp

theorem vcNonce_snd (cfg : Settings) (tok : ClaimSet) (n : Option String) (vn : Bool) :
    (vcNonce cfg tok n vn).2 = tok := by
  unfold vcNonce
  split_ifs <;> rfl

theorem vcIat_snd (cfg : Settings) (now : Int) (tok : ClaimSet)
    (n : Option String) (vn : Bool) : (vcIat cfg now tok n vn).2 = tok := by
  unfold vcIat
  split
  · rfl
  · split_ifs
    · rfl
    · exact vcNonce_snd cfg tok n vn

theorem vcNbf_snd (cfg : Settings) (now : Int) (tok : ClaimSet)
    (n : Option String) (vn : Bool) : (vcNbf cfg now tok n vn).2 = tok := by
  unfold vcNbf
  split
  · split_ifs
    · rfl
    · exact vcIat_snd cfg now tok n vn
  · exact vcIat_snd cfg now tok n vn

theorem vcExp_snd (cfg : Settings) (now : Int) (tok : ClaimSet)
    (n : Option String) (vn : Bool) : (vcExp cfg now tok n vn).2 = tok := by
  unfold vcExp
  split
  · rfl
  · split_ifs
    · rfl
    · exact vcNbf_snd cfg now tok n vn

theorem vcAzpMatch_snd (cfg : Settings) (now : Int) (tok : ClaimSet)
    (n : Option String) (vn : Bool) : (vcAzpMatch cfg now tok n vn).2 = tok := by
  unfold vcAzpMatch
  split
  · split_ifs
    · rfl
    · exact vcExp_snd cfg now tok n vn
  · exact vcExp_snd cfg now tok n vn

theorem vcAzpPresence_snd (cfg : Settings) (now : Int) (tok : ClaimSet)
    (audList : List String) (n : Option String) (vn : Bool) :
    (vcAzpPresence cfg now tok audList n vn).2 = tok := by
  unfold vcAzpPresence
  split_ifs
  · rfl
  · exact vcAzpMatch_snd cfg now tok n vn

theorem vcAudMember_snd (cfg : Settings) (now : Int) (tok : ClaimSet)
    (audList : List String) (n : Option String) (vn : Bool) :
    (vcAudMember cfg now tok audList n vn).2 = tok := by
  unfold vcAudMember
  split_ifs
  · exact vcAzpPresence_snd cfg now tok audList n vn
  · rfl

/-- State characterisation: the claims dict coming out of
`_validate_claims` is the input dict, except that when `aud` is a bare
string and the issuer check is passed, the `aud` entry has been replaced
in place by a one-element list. -/
theorem validate_claims_snd (cfg : Settings) (now : Int) (cl : ClaimSet)
    (n : Option String) (vn : Bool) :
    (_validate_claims cfg now cl n vn).2 = cl ∨
      ∃ v, cl.aud = some (.s v) ∧
        (_validate_claims cfg now cl n vn).2 = { cl with aud := some (.l [v]) } := by
  unfold _validate_claims
  cases hiss : cl.iss with
  | none => exact Or.inl rfl
  | some iss =>
      dsimp only
      split_ifs
      · exact Or.inl rfl
      · cases haud : cl.aud with
        | none => exact Or.inl rfl
        | some audv =>
            cases audv with
            | s v =>
                refine Or.inr ⟨v, rfl, ?_⟩
                rw [vcAudMember_snd]
                simp [normTok, hiss]
            | l vs =>
                refine Or.inl ?_
                rw [vcAudMember_snd]
                rfl

/-- The checks downstream of the issuer comparison can never produce the
issuer error. -/
theorem vcAudMember_fst_ne_invalidIssuer (cfg : Settings) (now : Int)
    (tok : ClaimSet) (audList : List String) (n : Option String) (vn : Bool) :
    (vcAudMember cfg now tok audList n vn).1 ≠ .error invalidIssuer := by
  unfold vcAudMember vcAzpPresence vcAzpMatch vcExp vcNbf vcIat vcNonce
  repeat' split
  all_goals simp [invalidIssuer, invalidAudience, missingAuthorizedParty,
    invalidAuthorizedParty, tokenExpired, tokenNotYetValid, tokenTooOld, invalidNonce]

theorem vcAudMember_to_vcExp (cfg : Settings) (now : Int) (tok : ClaimSet)
    (audList : List String) (n : Option String) (vn : Bool)
    (hmem : cfg.CLIENT_ID ∈ audList)
    (hrp : ¬(audList.length > 1 ∧ tok.azp = none))
    (hrm : tok.azp = none ∨ tok.azp = some cfg.CLIENT_ID) :
    vcAudMember cfg now tok audList n vn = vcExp cfg now tok n vn := by
  unfold vcAudMember vcAzpPresence vcAzpMatch
  rw [if_neg (by simp [hmem]), if_neg hrp]
  rcases hrm with h | h
  · rw [h]
  · rw [h]
    dsimp only
    rw [if_neg (by simp)]

theorem vcExp_to_vcNbf (cfg : Settings) (now : Int) (tok : ClaimSet)
    (n : Option String) (vn : Bool) (e : Int)
    (hexp : tok.exp = some e) (he : ¬ now > e) :
    vcExp cfg now tok n vn = vcNbf cfg now tok n vn := by
  unfold vcExp
  rw [hexp]
  dsimp only
  rw [if_neg he]

theorem vcNbf_to_vcIat (cfg : Settings) (now : Int) (tok : ClaimSet)
    (n : Option String) (vn : Bool)
    (hrn : ∀ b, tok.nbf = some b → ¬ now < b) :
    vcNbf cfg now tok n vn = vcIat cfg now tok n vn := by
  unfold vcNbf
  cases hnbf : tok.nbf with
  | none => rfl
  | some b =>
      dsimp only
      rw [if_neg (hrn b hnbf)]

/-- Claim C1, counterexample.  When the library signature check raises a
`JWKESTException` (decode error, unsupported algorithm, no matching key,
or cryptographic mismatch), `validate_and_return_id_token` does NOT fail
with any typed error: it swallows the exception and returns `None`
(`.ok none`).  No `ClaimSet` is returned, but neither is a typed
`SignatureError` — the failure is indistinguishable from the absence of
a result. -/
theorem claimC1_counterexample :
    validate_and_return_id_token ⟨"cid", "https://op.example.com/", false, 600⟩ 1000
        (.error "SignatureInvalid") none true = .ok none ∧
    ∀ e : Err, validate_and_return_id_token ⟨"cid", "https://op.example.com/", false, 600⟩ 1000
        (.error "SignatureInvalid") none true ≠ .error e := by
  refine ⟨rfl, fun e h => ?_⟩
  simp [validate_and_return_id_token] at h

/-- Claim C1, amended.  For every signature-verification failure
(`JWKESTException` with any message), `validate_and_return_id_token`
returns `None` — never a `ClaimSet`, not even partially, and never a
typed error: the exception is swallowed silently. -/
theorem claimC1_amended (cfg : Settings) (now : Int) (msg : String)
    (nonce : Option String) (validate_nonce : Bool) :
    validate_and_return_id_token cfg now (.error msg) nonce validate_nonce = .ok none :=
  rfl

/-- Claim C2, counterexample.  With `iss = "http://op.example.com"` and
configured provider endpoint `"https://op.example.com/"` the two
authorities in the spec's sense (scheme+host+port) differ — the schemes
are `http` vs `https` — yet claim validation passes: the source compares
only `urlparse(...).netloc`, which does not include the scheme. -/
theorem claimC2_counterexample :
    specAuthority "http://op.example.com" ≠ specAuthority "https://op.example.com/" ∧
    (_validate_claims ⟨"cid", "https://op.example.com/", false, 600⟩ 1000
        ⟨some "http://op.example.com", some (.s "cid"), none, some 2000, none, some 800, none⟩
        none true).1 = .ok () := by
  constructor
  · decide
  · rfl

/-- Claim C2, amended.  The issuer check passes exactly when the netloc
(host and port, ignoring scheme, path and trailing slash) of
`claims.iss` equals the netloc of the configured provider endpoint; on a
netloc mismatch validation fails with `invalidIssuer` before any other
check (the raise happens before any other claim is read and before the
`aud` normalisation, so the dict is returned unchanged), and when the
netlocs agree the validator can never produce `invalidIssuer`. -/
theorem claimC2_amended (cfg : Settings) (now : Int) (cl : ClaimSet)
    (n : Option String) (vn : Bool) (iss : String) (hiss : cl.iss = some iss) :
    (urlNetloc iss ≠ urlNetloc cfg.PROVIDER_ENDPOINT →
       _validate_claims cfg now cl n vn = (.error invalidIssuer, cl)) ∧
    (urlNetloc iss = urlNetloc cfg.PROVIDER_ENDPOINT →
       (_validate_claims cfg now cl n vn).1 ≠ .error invalidIssuer) := by
  constructor
  · intro h
    unfold _validate_claims
    rw [hiss]
    dsimp only
    rw [if_pos h]
  · intro h
    unfold _validate_claims
    rw [hiss]
    dsimp only
    rw [if_neg (by simp [h])]
    cases haud : cl.aud with
    | none => simp [invalidIssuer]
    | some audv => exact vcAudMember_fst_ne_invalidIssuer cfg now _ _ n vn

/-- Witness for `claimC2_amended` at a concrete input: an issuer whose
host differs from the provider endpoint's host makes validation fail
with the issuer error, the dict unchanged. -/
theorem claimC2_witness :
    _validate_claims ⟨"cid", "https://op.example.com/", false, 600⟩ 1000
        ⟨some "https://evil.example.com", some (.s "cid"), none, some 2000, none, some 800, none⟩
        none true
      = (.error invalidIssuer,
         ⟨some "https://evil.example.com", some (.s "cid"), none, some 2000, none, some 800, none⟩) :=
  (claimC2_amended _ 1000 _ none true "https://evil.example.com" rfl).1 (by decide)

/-- Claim C3.  On a token that passes the issuer, audience and azp
checks, the expiry check fails with `tokenExpired` exactly when the
current time exceeds `exp`: equivalently, it passes exactly when
`now ≤ exp` (so `exp = now` passes, `exp = now - 1` fails). -/
theorem claimC3 (cfg : Settings) (now : Int) (iss : String) (audv : AudValue)
    (azp : Option String) (e : Int) (nbf : Option Int) (i : Int)
    (tn n : Option String) (vn : Bool)
    (h1 : ruleIssuer cfg iss = none)
    (h2 : ruleAudience cfg (normAudList audv) = none)
    (h3 : ruleAzpPresence (normAudList audv) azp = none)
    (h4 : ruleAzpMatch cfg azp = none) :
    ((_validate_claims cfg now ⟨some iss, some audv, azp, some e, nbf, some i, tn⟩ n vn).1
        = .error tokenExpired ↔ now > e) := by
  rw [validate_claims_eq_firstErr]
  unfold claimChecks
  rw [h1, h2, h3, h4, firstErr_none, firstErr_none, firstErr_none, firstErr_none]
  constructor
  · intro h
    by_contra hc
    rw [(ruleExpiry_none_iff now e).2 hc, firstErr_none] at h
    have hmem := firstErr_error_mem _ _ h
    simp only [List.mem_cons, List.not_mem_nil, or_false] at hmem
    rcases hmem with h' | h' | h'
    · rcases ruleNbf_cases now nbf with hn | hn <;>
        rw [hn] at h' <;> simp [tokenExpired, tokenNotYetValid] at h'
    · rcases ruleIat_cases cfg now i with hn | hn <;>
        rw [hn] at h' <;> simp [tokenExpired, tokenTooOld] at h'
    · rcases ruleNonce_cases cfg vn tn n with hn | hn <;>
        rw [hn] at h' <;> simp [tokenExpired, invalidNonce] at h'
  · intro h
    have he : ruleExpiry now e = some tokenExpired := by
      unfold ruleExpiry
      rw [if_pos h]
    rw [he, firstErr_some]

/-- Witness for `claimC3` at the spec's scenario inputs, with
`now = 1000`: `exp = 999` fails with the expiry error; `exp = 1000`
(expiry equal to now) and `exp = 4600` (now + 3600) do not. -/
theorem claimC3_witness :
    (_validate_claims ⟨"cid", "https://op.example.com/", false, 600⟩ 1000
        ⟨some "https://op.example.com", some (.s "cid"), none, some 999, none, some 800, none⟩
        none true).1 = .error tokenExpired ∧
    (_validate_claims ⟨"cid", "https://op.example.com/", false, 600⟩ 1000
        ⟨some "https://op.example.com", some (.s "cid"), none, some 1000, none, some 800, none⟩
        none true).1 ≠ .error tokenExpired ∧
    (_validate_claims ⟨"cid", "https://op.example.com/", false, 600⟩ 1000
        ⟨some "https://op.example.com", some (.s "cid"), none, some 4600, none, some 800, none⟩
        none true).1 ≠ .error tokenExpired := by
  refine ⟨?_, ?_, ?_⟩
  · exact (claimC3 _ 1000 _ _ _ 999 none 800 none none true
      (by decide) (by decide) (by decide) (by decide)).2 (by decide)
  · intro hc
    exact absurd ((claimC3 _ 1000 _ _ _ 1000 none 800 none none true
      (by decide) (by decide) (by decide) (by decide)).1 hc) (by decide)
  · intro hc
    exact absurd ((claimC3 _ 1000 _ _ _ 4600 none 800 none none true
      (by decide) (by decide) (by decide) (by decide)).1 hc) (by decide)

/-- Claim C4.  On a token that passes all earlier checks, when the
`validate_nonce` argument is true and `USE_NONCE` is configured on, the
nonce check fails with `invalidNonce` exactly when the token's `nonce`
claim differs from the expected nonce, where an absent claim reads as
`None` (via `.get('nonce', None)`); in particular an absent nonce claim
with a non-null expected nonce is a mismatch and fails. -/
theorem claimC4 (cfg : Settings) (now : Int) (iss : String) (audv : AudValue)
    (azp : Option String) (e : Int) (nbf : Option Int) (i : Int)
    (tn n : Option String) (vn : Bool)
    (h1 : ruleIssuer cfg iss = none)
    (h2 : ruleAudience cfg (normAudList audv) = none)
    (h3 : ruleAzpPresence (normAudList audv) azp = none)
    (h4 : ruleAzpMatch cfg azp = none)
    (h5 : ruleExpiry now e = none)
    (h6 : ruleNbf now nbf = none)
    (h7 : ruleIat cfg now i = none)
    (hvn : vn = true)
    (hun : cfg.USE_NONCE = true) :
    ((_validate_claims cfg now ⟨some iss, some audv, azp, some e, nbf, some i, tn⟩ n vn).1
        = .error invalidNonce ↔ tn ≠ n) ∧
    (tn = none → ∀ x, n = some x →
      (_validate_claims cfg now ⟨some iss, some audv, azp, some e, nbf, some i, tn⟩ n vn).1
        = .error invalidNonce) := by
  have main : (_validate_claims cfg now ⟨some iss, some audv, azp, some e, nbf, some i, tn⟩ n vn).1
      = .error invalidNonce ↔ tn ≠ n := by
    rw [validate_claims_eq_firstErr]
    unfold claimChecks
    rw [h1, h2, h3, h4, h5, h6, h7, firstErr_none, firstErr_none, firstErr_none,
      firstErr_none, firstErr_none, firstErr_none, firstErr_none]
    unfold ruleNonce
    rw [hvn, hun]
    split_ifs with h
    · rw [firstErr_some]
      simp only [true_iff]
      exact h.2.2
    · rw [firstErr_none]
      simp only [firstErr, List.findSome?]
      constructor
      · intro hc
        exact Except.noConfusion hc
      · intro hne
        exact absurd ⟨rfl, rfl, hne⟩ h
  exact ⟨main, fun htn x hn => main.2 (by simp [htn, hn])⟩

/-- Witness for `claimC4` at the spec's scenario: nonce enforcement on,
expected nonce `"abc123"`; token nonce `"xyz"` fails with the nonce
error, an equal nonce passes the nonce check, and an absent token nonce
fails. -/
theorem claimC4_witness :
    (_validate_claims ⟨"cid", "https://op.example.com/", true, 600⟩ 1000
        ⟨some "https://op.example.com", some (.s "cid"), none, some 2000, none, some 800, some "xyz"⟩
        (some "abc123") true).1 = .error invalidNonce ∧
    (_validate_claims ⟨"cid", "https://op.example.com/", true, 600⟩ 1000
        ⟨some "https://op.example.com", some (.s "cid"), none, some 2000, none, some 800, some "abc123"⟩
        (some "abc123") true).1 ≠ .error invalidNonce ∧
    (_validate_claims ⟨"cid", "https://op.example.com/", true, 600⟩ 1000
        ⟨some "https://op.example.com", some (.s "cid"), none, some 2000, none, some 800, none⟩
        (some "abc123") true).1 = .error invalidNonce := by
  refine ⟨?_, ?_, ?_⟩
  · exact ((claimC4 _ 1000 _ _ _ 2000 none 800 (some "xyz") (some "abc123") true
      (by decide) (by decide) (by decide) (by decide) (by decide) (by decide) (by decide)
      rfl rfl).1).2 (by decide)
  · intro hc
    exact absurd (((claimC4 _ 1000 _ _ _ 2000 none 800 (some "abc123") (some "abc123") true
      (by decide) (by decide) (by decide) (by decide) (by decide) (by decide) (by decide)
      rfl rfl).1).1 hc) (by decide)
  · exact (claimC4 _ 1000 _ _ _ 2000 none 800 none (some "abc123") true
      (by decide) (by decide) (by decide) (by decide) (by decide) (by decide) (by decide)
      rfl rfl).2 rfl "abc123" rfl

/-- Claim C5.  A bare-string `aud` is normalised to the one-element list
holding it before the membership test, and — on a token passing the
issuer check — the audience check fails with `invalidAudience` exactly
when the configured client ID is not a member of the normalised
audience; so a bare string equal to the client ID succeeds. -/
theorem claimC5 (cfg : Settings) (now : Int) (iss : String) (audv : AudValue)
    (azp : Option String) (e : Int) (nbf : Option Int) (i : Int)
    (tn n : Option String) (vn : Bool)
    (h1 : ruleIssuer cfg iss = none) :
    (∀ v, normAudList (.s v) = [v]) ∧
    ((_validate_claims cfg now ⟨some iss, some audv, azp, some e, nbf, some i, tn⟩ n vn).1
        = .error invalidAudience ↔ cfg.CLIENT_ID ∉ normAudList audv) := by
  refine ⟨fun v => rfl, ?_⟩
  rw [validate_claims_eq_firstErr]
  unfold claimChecks
  rw [h1, firstErr_none]
  constructor
  · intro h
    by_contra hc
    rw [(ruleAudience_none_iff cfg _).2 hc, firstErr_none] at h
    have hmem := firstErr_error_mem _ _ h
    simp only [List.mem_cons, List.not_mem_nil, or_false] at hmem
    rcases hmem with h' | h' | h' | h' | h' | h'
    · rcases ruleAzpPresence_cases (normAudList audv) azp with hn | hn <;>
        rw [hn] at h' <;> simp [invalidAudience, missingAuthorizedParty] at h'
    · rcases ruleAzpMatch_cases cfg azp with hn | hn <;>
        rw [hn] at h' <;> simp [invalidAudience, invalidAuthorizedParty] at h'
    · rcases ruleExpiry_cases now e with hn | hn <;>
        rw [hn] at h' <;> simp [invalidAudience, tokenExpired] at h'
    · rcases ruleNbf_cases now nbf with hn | hn <;>
        rw [hn] at h' <;> simp [invalidAudience, tokenNotYetValid] at h'
    · rcases ruleIat_cases cfg now i with hn | hn <;>
        rw [hn] at h' <;> simp [invalidAudience, tokenTooOld] at h'
    · rcases ruleNonce_cases cfg vn tn n with hn | hn <;>
        rw [hn] at h' <;> simp [invalidAudience, invalidNonce] at h'
  · intro h
    have ha : ruleAudience cfg (normAudList audv) = some invalidAudience := by
      unfold ruleAudience
      rw [if_pos h]
    rw [ha, firstErr_some]

/-- Witness for `claimC5`: a bare-string `aud` equal to the configured
client ID passes the audience check; a bare string different from it
fails with the audience error. -/
theorem claimC5_witness :
    (_validate_claims ⟨"cid", "https://op.example.com/", false, 600⟩ 1000
        ⟨some "https://op.example.com", some (.s "cid"), none, some 2000, none, some 800, none⟩
        none true).1 ≠ .error invalidAudience ∧
    (_validate_claims ⟨"cid", "https://op.example.com/", false, 600⟩ 1000
        ⟨some "https://op.example.com", some (.s "other"), none, some 2000, none, some 800, none⟩
        none true).1 = .error invalidAudience := by
  refine ⟨?_, ?_⟩
  · intro hc
    exact absurd (((claimC5 _ 1000 _ _ _ 2000 none 800 none none true
      (by decide)).2).1 hc) (by decide)
  · exact ((claimC5 _ 1000 _ _ _ 2000 none 800 none none true
      (by decide)).2).2 (by decide)

/-- Claim C6.  On a token passing the issuer and audience checks: a
multi-audience token without `azp` fails with `missingAuthorizedParty`;
a present `azp` differing from the client ID fails with
`invalidAuthorizedParty` regardless of the audience count; and with
`azp` equal to the configured client ID neither azp error can occur
(e.g. `aud = ["clientA", "clientB"]` with matching `azp` passes both
azp checks). -/
theorem claimC6 (cfg : Settings) (now : Int) (iss : String) (audv : AudValue)
    (azp : Option String) (e : Int) (nbf : Option Int) (i : Int)
    (tn n : Option String) (vn : Bool)
    (h1 : ruleIssuer cfg iss = none)
    (h2 : ruleAudience cfg (normAudList audv) = none) :
    ((normAudList audv).length > 1 → azp = none →
       (_validate_claims cfg now ⟨some iss, some audv, azp, some e, nbf, some i, tn⟩ n vn).1
         = .error missingAuthorizedParty) ∧
    (∀ a, azp = some a → a ≠ cfg.CLIENT_ID →
       (_validate_claims cfg now ⟨some iss, some audv, azp, some e, nbf, some i, tn⟩ n vn).1
         = .error invalidAuthorizedParty) ∧
    (azp = some cfg.CLIENT_ID →
       (_validate_claims cfg now ⟨some iss, some audv, azp, some e, nbf, some i, tn⟩ n vn).1
         ≠ .error missingAuthorizedParty ∧
       (_validate_claims cfg now ⟨some iss, some audv, azp, some e, nbf, some i, tn⟩ n vn).1
         ≠ .error invalidAuthorizedParty) := by
  refine ⟨?_, ?_, ?_⟩
  · intro hlen hazp
    rw [validate_claims_eq_firstErr]
    unfold claimChecks
    rw [h1, h2, firstErr_none, firstErr_none]
    have hp : ruleAzpPresence (normAudList audv) azp = some missingAuthorizedParty := by
      unfold ruleAzpPresence
      rw [if_pos ⟨hlen, hazp⟩]
    rw [hp, firstErr_some]
  · intro a ha hne
    rw [validate_claims_eq_firstErr]
    unfold claimChecks
    rw [h1, h2, firstErr_none, firstErr_none,
      (ruleAzpPresence_none_iff _ _).2 (by simp [ha]), firstErr_none]
    have hm : ruleAzpMatch cfg azp = some invalidAuthorizedParty := by
      unfold ruleAzpMatch
      rw [ha]
      dsimp only
      rw [if_pos hne]
    rw [hm, firstErr_some]
  · intro hazp
    have key : (_validate_claims cfg now ⟨some iss, some audv, azp, some e, nbf, some i, tn⟩ n vn).1
        ≠ .error missingAuthorizedParty := by
      rw [validate_claims_eq_firstErr]
      unfold claimChecks
      rw [h1, h2, firstErr_none, firstErr_none,
        (ruleAzpPresence_none_iff _ _).2 (by simp [hazp]), firstErr_none,
        (ruleAzpMatch_none_iff cfg azp).2 (Or.inr hazp), firstErr_none]
      intro h
      have hmem := firstErr_error_mem _ _ h
      simp only [List.mem_cons, List.not_mem_nil, or_false] at hmem
      rcases hmem with h' | h' | h' | h'
      · rcases ruleExpiry_cases now e with hn | hn <;>
          rw [hn] at h' <;> simp [missingAuthorizedParty, tokenExpired] at h'
      · rcases ruleNbf_cases now nbf with hn | hn <;>
          rw [hn] at h' <;> simp [missingAuthorizedParty, tokenNotYetValid] at h'
      · rcases ruleIat_cases cfg now i with hn | hn <;>
          rw [hn] at h' <;> simp [missingAuthorizedParty, tokenTooOld] at h'
      · rcases ruleNonce_cases cfg vn tn n with hn | hn <;>
          rw [hn] at h' <;> simp [missingAuthorizedParty, invalidNonce] at h'
    exact ⟨key, key⟩

/-- Witness for `claimC6` at the spec's scenario: a two-audience token
`["clientA", "clientB"]` (client ID `"clientA"`) without `azp` fails
with the azp error; with a non-matching `azp` it fails with the azp
error; with `azp = "clientA"` neither azp failure occurs. -/
theorem claimC6_witness :
    (_validate_claims ⟨"clientA", "https://op.example.com/", false, 600⟩ 1000
        ⟨some "https://op.example.com", some (.l ["clientA", "clientB"]), none, some 2000, none, some 800, none⟩
        none true).1 = .error missingAuthorizedParty ∧
    (_validate_claims ⟨"clientA", "https://op.example.com/", false, 600⟩ 1000
        ⟨some "https://op.example.com", some (.l ["clientA", "clientB"]), some "clientB", some 2000, none, some 800, none⟩
        none true).1 = .error invalidAuthorizedParty ∧
    ((_validate_claims ⟨"clientA", "https://op.example.com/", false, 600⟩ 1000
        ⟨some "https://op.example.com", some (.l ["clientA", "clientB"]), some "clientA", some 2000, none, some 800, none⟩
        none true).1 ≠ .error missingAuthorizedParty ∧
     (_validate_claims ⟨"clientA", "https://op.example.com/", false, 600⟩ 1000
        ⟨some "https://op.example.com", some (.l ["clientA", "clientB"]), some "clientA", some 2000, none, some 800, none⟩
        none true).1 ≠ .error invalidAuthorizedParty) := by
  refine ⟨?_, ?_, ?_⟩
  · exact ((claimC6 _ 1000 _ _ _ 2000 none 800 none none true
      (by decide) (by decide)).1) (by decide) rfl
  · exact ((claimC6 _ 1000 _ _ _ 2000 none 800 none none true
      (by decide) (by decide)).2.1) "clientB" rfl (by decide)
  · exact ((claimC6 _ 1000 _ _ _ 2000 none 800 none none true
      (by decide) (by decide)).2.2) rfl

/-- Claim C7.  On a token carrying the four required claims, claim
validation is extensionally an ordered fail-fast sequence: issuer,
audience normalisation (in `normAudList`/`claimChecks`), audience
membership, multi-audience azp presence, azp match, expiry, not-before,
issued-at freshness, nonce — its outcome equals the first failing
check's error, and is success only when every check passes. -/
theorem claimC7 (cfg : Settings) (now : Int) (cl : ClaimSet)
    (n : Option String) (vn : Bool) (iss : String) (audv : AudValue) (e i : Int)
    (hiss : cl.iss = some iss) (haud : cl.aud = some audv)
    (hexp : cl.exp = some e) (hiat : cl.iat = some i) :
    (_validate_claims cfg now cl n vn).1 =
      firstErr (claimChecks cfg now iss audv cl.azp e cl.nbf i cl.nonce n vn) := by
  obtain ⟨f1, f2, f3, f4, f5, f6, f7⟩ := cl
  dsimp only at hiss haud hexp hiat ⊢
  subst hiss haud hexp hiat
  exact validate_claims_eq_firstErr cfg now iss audv f3 e f5 i f7 n vn

/-- Witness for `claimC7` at a concrete input whose first failing check
is the audience membership (check 3). -/
theorem claimC7_witness :
    (_validate_claims ⟨"cid", "https://op.example.com/", false, 600⟩ 1000
        ⟨some "https://op.example.com", some (.l ["a", "b"]), none, some 2000, none, some 800, none⟩
        none true).1 =
      firstErr (claimChecks ⟨"cid", "https://op.example.com/", false, 600⟩ 1000
        "https://op.example.com" (.l ["a", "b"]) none 2000 none 800 none none true) :=
  claimC7 _ 1000 _ none true _ _ 2000 800 rfl rfl rfl rfl

/-- Claim C8, counterexample.  A multi-audience token lacking `azp` and
a token whose `azp` differs from the configured client ID produce
EXACTLY the same failure — `SuspiciousOperation` with the message
`"Incorrect id_token: azp"` — so the two failures are NOT
distinguishable: the source raises the identical exception at utils.py
lines 91 and 94. -/
theorem claimC8_counterexample :
    (_validate_claims ⟨"clientA", "https://op.example.com/", false, 600⟩ 1000
        ⟨some "https://op.example.com", some (.l ["clientA", "clientB"]), none, some 2000, none, some 800, none⟩
        none true).1 =
      (_validate_claims ⟨"clientA", "https://op.example.com/", false, 600⟩ 1000
        ⟨some "https://op.example.com", some (.s "clientA"), some "clientX", some 2000, none, some 800, none⟩
        none true).1 ∧
    (_validate_claims ⟨"clientA", "https://op.example.com/", false, 600⟩ 1000
        ⟨some "https://op.example.com", some (.l ["clientA", "clientB"]), none, some 2000, none, some 800, none⟩
        none true).1 = .error (.suspicious "Incorrect id_token: azp") := by
  exact ⟨rfl, rfl⟩

/-- Claim C8, amended.  The claim-validation failures are
distinguishable by their messages with one exception: the
multi-audience-missing-azp failure and the azp-mismatch failure are the
same error value (`"Incorrect id_token: azp"`); the remaining error
values are pairwise distinct. -/
theorem claimC8_amended :
    ([invalidIssuer, invalidAudience, missingAuthorizedParty, tokenExpired,
      tokenNotYetValid, tokenTooOld, invalidNonce] : List Err).Pairwise (· ≠ ·) ∧
    missingAuthorizedParty = invalidAuthorizedParty := by
  exact ⟨by decide, rfl⟩

/-- Claim C9, counterexample.  The claim validator is not free of side
effects on its input: on a claims dict whose `aud` is the bare string
`"cid"`, the dict coming out of `_validate_claims` differs from the dict
passed in — `aud` has been replaced in place by `["cid"]` (utils.py
line 83). -/
theorem claimC9_counterexample :
    (_validate_claims ⟨"cid", "https://op.example.com/", false, 600⟩ 1000
        ⟨some "https://op.example.com", some (.s "cid"), none, some 2000, none, some 800, none⟩
        none true).2 ≠
      ⟨some "https://op.example.com", some (.s "cid"), none, some 2000, none, some 800, none⟩ := by
  decide

/-- Claim C9, amended.  Exact characterisation of the validator's side
effect on the caller-supplied claims mapping: when the issuer check is
reached (`iss` present) and passed (netlocs agree) and `aud` is a bare
string, the `aud` entry is replaced in place by the one-element list
holding it, every other field unchanged; in every other case — the
issuer check not reached, failed, or `aud` absent or already a list —
the whole mapping comes back unchanged. -/
theorem claimC9_amended (cfg : Settings) (now : Int) (cl : ClaimSet)
    (n : Option String) (vn : Bool) :
    (∀ iss v, cl.iss = some iss →
       urlNetloc iss = urlNetloc cfg.PROVIDER_ENDPOINT →
       cl.aud = some (.s v) →
       (_validate_claims cfg now cl n vn).2 = { cl with aud := some (AudValue.l [v]) }) ∧
    ((¬ ∃ iss v, cl.iss = some iss ∧
        urlNetloc iss = urlNetloc cfg.PROVIDER_ENDPOINT ∧
        cl.aud = some (.s v)) →
       (_validate_claims cfg now cl n vn).2 = cl) := by
  constructor
  · intro iss v hiss hnet haud
    unfold _validate_claims
    rw [hiss]
    dsimp only
    rw [if_neg (by simp [hnet])]
    rw [haud]
    dsimp only
    rw [vcAudMember_snd]
    simp [normTok, hiss]
  · intro hno
    cases hiss : cl.iss with
    | none =>
        unfold _validate_claims
        rw [hiss]
    | some iss =>
        unfold _validate_claims
        rw [hiss]
        dsimp only
        by_cases hnet : urlNetloc iss = urlNetloc cfg.PROVIDER_ENDPOINT
        · rw [if_neg (by simp [hnet])]
          cases haud : cl.aud with
          | none => rfl
          | some audv =>
              cases audv with
              | s v => exact absurd ⟨iss, v, hiss, hnet, haud⟩ hno
              | l vs =>
                  dsimp only
                  rw [vcAudMember_snd]
                  rfl
        · rw [if_pos hnet]

/-- Witness for `claimC9_amended`: with the issuer check passing and a
bare-string `aud`, the returned dict is the input with `aud` replaced by
the one-element list; with the issuer check failing on an otherwise
identical dict, the input comes back entirely unchanged. -/
theorem claimC9_witness :
    (_validate_claims ⟨"cid", "https://op.example.com/", false, 600⟩ 1000
        ⟨some "https://op.example.com", some (.s "cid"), none, some 2000, none, some 800, none⟩
        none true).2 =
      ⟨some "https://op.example.com", some (.l ["cid"]), none, some 2000, none, some 800, none⟩ ∧
    (_validate_claims ⟨"cid", "https://op.example.com/", false, 600⟩ 1000
        ⟨some "https://evil.example.com", some (.s "cid"), none, some 2000, none, some 800, none⟩
        none true).2 =
      ⟨some "https://evil.example.com", some (.s "cid"), none, some 2000, none, some 800, none⟩ := by
  constructor
  · exact (claimC9_amended _ 1000 _ none true).1 "https://op.example.com" "cid"
      rfl (by decide) rfl
  · refine (claimC9_amended _ 1000 _ none true).2 ?_
    rintro ⟨iss, v, hiss, hnet, haud⟩
    injection hiss with h
    subst h
    exact absurd hnet (by decide)

/-- Claim C10.  A token missing a required claim makes `_validate_claims`
raise an untyped `KeyError` at the point where that claim is first read,
not one of the typed `SuspiciousOperation` failures: without `iss` it
fails with `KeyError "iss"` immediately; without `aud`, once the issuer
check passed, with `KeyError "aud"`; without `exp`, once the issuer,
audience and azp checks passed, with `KeyError "exp"`; without `iat`,
once additionally the expiry and not-before checks passed, with
`KeyError "iat"`. -/
theorem claimC10 (cfg : Settings) (now : Int) (cl : ClaimSet)
    (n : Option String) (vn : Bool) (iss : String) (audv : AudValue) (e : Int) :
    (cl.iss = none → _validate_claims cfg now cl n vn = (.error (.keyError "iss"), cl)) ∧
    (cl.iss = some iss → ruleIssuer cfg iss = none → cl.aud = none →
       _validate_claims cfg now cl n vn = (.error (.keyError "aud"), cl)) ∧
    (cl.iss = some iss → ruleIssuer cfg iss = none → cl.aud = some audv →
       ruleAudience cfg (normAudList audv) = none →
       ruleAzpPresence (normAudList audv) cl.azp = none →
       ruleAzpMatch cfg cl.azp = none →
       cl.exp = none →
       (_validate_claims cfg now cl n vn).1 = .error (.keyError "exp")) ∧
    (cl.iss = some iss → ruleIssuer cfg iss = none → cl.aud = some audv →
       ruleAudience cfg (normAudList audv) = none →
       ruleAzpPresence (normAudList audv) cl.azp = none →
       ruleAzpMatch cfg cl.azp = none →
       cl.exp = some e →
       ruleExpiry now e = none →
       ruleNbf now cl.nbf = none →
       cl.iat = none →
       (_validate_claims cfg now cl n vn).1 = .error (.keyError "iat")) := by
  refine ⟨?_, ?_, ?_, ?_⟩
  · intro h
    unfold _validate_claims
    rw [h]
  · intro hiss hri haud
    unfold _validate_claims
    rw [hiss]
    dsimp only
    rw [if_neg (by simp [(ruleIssuer_none_iff cfg iss).1 hri])]
    rw [haud]
  · intro hiss hri haud h2 h3 h4 hexp
    unfold _validate_claims
    rw [hiss]
    dsimp only
    rw [if_neg (by simp [(ruleIssuer_none_iff cfg iss).1 hri])]
    rw [haud]
    dsimp only
    have hmem : cfg.CLIENT_ID ∈ normAudList audv := (ruleAudience_none_iff cfg _).1 h2
    have hrp : ¬((normAudList audv).length > 1 ∧ (normTok cl audv).azp = none) := by
      rw [normTok_azp]
      exact (ruleAzpPresence_none_iff _ _).1 h3
    have hrm : (normTok cl audv).azp = none ∨ (normTok cl audv).azp = some cfg.CLIENT_ID := by
      rw [normTok_azp]
      exact (ruleAzpMatch_none_iff cfg _).1 h4
    rw [vcAudMember_to_vcExp cfg now _ _ n vn hmem hrp hrm]
    unfold vcExp
    rw [normTok_exp, hexp]
  · intro hiss hri haud h2 h3 h4 hexp h5 h6 hiat
    unfold _validate_claims
    rw [hiss]
    dsimp only
    rw [if_neg (by simp [(ruleIssuer_none_iff cfg iss).1 hri])]
    rw [haud]
    dsimp only
    have hmem : cfg.CLIENT_ID ∈ normAudList audv := (ruleAudience_none_iff cfg _).1 h2
    have hrp : ¬((normAudList audv).length > 1 ∧ (normTok cl audv).azp = none) := by
      rw [normTok_azp]
      exact (ruleAzpPresence_none_iff _ _).1 h3
    have hrm : (normTok cl audv).azp = none ∨ (normTok cl audv).azp = some cfg.CLIENT_ID := by
      rw [normTok_azp]
      exact (ruleAzpMatch_none_iff cfg _).1 h4
    rw [vcAudMember_to_vcExp cfg now _ _ n vn hmem hrp hrm]
    rw [vcExp_to_vcNbf cfg now _ n vn e (by rw [normTok_exp]; exact hexp)
      ((ruleExpiry_none_iff now e).1 h5)]
    rw [vcNbf_to_vcIat cfg now _ n vn
      (fun b hb => (ruleNbf_none_iff now cl.nbf).1 h6 b (by rwa [normTok_nbf] at hb))]
    unfold vcIat
    rw [normTok_iat, hiat]

/-- Witness for `claimC10`: each of the four missing-key scenarios at a
concrete input yields the corresponding `KeyError`. -/
theorem claimC10_witness :
    _validate_claims ⟨"cid", "https://op.example.com/", false, 600⟩ 1000
        ⟨none, some (.s "cid"), none, some 2000, none, some 800, none⟩ none true
      = (.error (.keyError "iss"), ⟨none, some (.s "cid"), none, some 2000, none, some 800, none⟩) ∧
    _validate_claims ⟨"cid", "https://op.example.com/", false, 600⟩ 1000
        ⟨some "https://op.example.com", none, none, some 2000, none, some 800, none⟩ none true
      = (.error (.keyError "aud"), ⟨some "https://op.example.com", none, none, some 2000, none, some 800, none⟩) ∧
    (_validate_claims ⟨"cid", "https://op.example.com/", false, 600⟩ 1000
        ⟨some "https://op.example.com", some (.s "cid"), none, none, none, some 800, none⟩ none true).1
      = .error (.keyError "exp") ∧
    (_validate_claims ⟨"cid", "https://op.example.com/", false, 600⟩ 1000
        ⟨some "https://op.example.com", some (.s "cid"), none, some 2000, none, none, none⟩ none true).1
      = .error (.keyError "iat") := by
  refine ⟨?_, ?_, ?_, ?_⟩
  · exact (claimC10 _ 1000 _ none true "x" (.s "x") 0).1 rfl
  · exact (claimC10 _ 1000 _ none true "https://op.example.com" (.s "x") 0).2.1
      rfl (by decide) rfl
  · exact (claimC10 _ 1000 _ none true "https://op.example.com" (.s "cid") 0).2.2.1
      rfl (by decide) rfl (by decide) (by decide) (by decide) rfl
  · exact (claimC10 _ 1000 _ none true "https://op.example.com" (.s "cid") 2000).2.2.2
      rfl (by decide) rfl (by decide) (by decide) (by decide) rfl (by decide) (by decide) rfl
